import Mathlib

/-!
Shallow embedding of `src/main.rs` (an ONVIF PTZ camera controller).

Modelling conventions:
* Rust `Result<T, String>` together with `panic!` / `.unwrap()` failures is
  embedded as `Outcome`: `ok`, `err` (a returned `Err` value) and `panicked`
  (an aborting panic).  The distinction matters because several spec claims
  speak of returned error values while the code panics.
* The `url` crate is external to the repository; its two operations used by
  the code (`Url::parse`, normalising, and `Url::join`) are abstracted as an
  environment `UrlEnv`.  `parse` returns the normalised address string (the
  code compares `url.as_str()` values) or a parse-error message; `join`
  returns `none` when joining fails (the code `unwrap`s that, i.e. panics).
* Network transports are abstracted by passing the successful remote
  responses as inputs (`services` for get-services, `profiles` for
  get-profiles) and recording every remote call / timer suspension that the
  code issues in an ordered `Command` trace.  `deviceNew` additionally
  returns a `Bool` recording whether the get-services call was reached.
* Rust `f64` arithmetic is embedded over `ℚ`; the `as u64` truncation of
  `500.0 * sqrt(pan*pan + tilt*tilt)` is embedded exactly as the natural
  floor of the square root (`ratSqrtFloor`), which agrees with the float
  computation on the inputs considered here.
-/

namespace PtzCtl

/-- Credentials, from `soap::client::Credentials` as used in `main.rs`. -/
structure Credentials where
  username : String
  password : String
deriving DecidableEq

/-- A SOAP client, abstracted to the endpoint it is bound to and the
credentials it carries (`soap::client::ClientBuilder::new(&uri).credentials(c)`). -/
structure Client where
  uri : String
  creds : Option Credentials
deriving DecidableEq

/-- One entry of the get-services discovery response
(`schema::devicemgmt::Service`): an advertised address `x_addr` and a
namespace string.  `namespace` is a Lean keyword, hence the field name `ns`. -/
structure ServiceDescriptor where
  x_addr : String
  ns : String
deriving DecidableEq

/-- The `Device` struct of `main.rs`. -/
structure Device where
  device_mgmt : Client
  media : Option Client
  ptz : Option Client
deriving DecidableEq

/-- Outcome of running a piece of Rust code: a returned value, a returned
`Err` value, or an aborting `panic!` / `.unwrap()` failure. -/
inductive Outcome (α : Type) where
  | ok : α → Outcome α
  | err : String → Outcome α
  | panicked : String → Outcome α
deriving DecidableEq

/-- Recognise a returned `Err` value (not a panic). -/
def Outcome.isErr {α : Type} : Outcome α → Bool
  | .err _ => true
  | _ => false

/-- Recognise a returned `Ok` value. -/
def Outcome.isOk {α : Type} : Outcome α → Bool
  | .ok _ => true
  | _ => false

/-- Abstraction of the external `url` crate: `parse` normalises an address
string (or fails with a message, cf. `map_err(|e| e.to_string())`), `join`
resolves a relative path against a base (or fails, cf. `.unwrap()`). -/
structure UrlEnv where
  parse : String → Except String String
  join : String → String → Option String

/-- Character-list prefix test, the recursion underlying `rsStartsWith`. -/
def charsPref : List Char → List Char → Bool
  | [], _ => true
  | _ :: _, [] => false
  | a :: as, b :: bs => a == b && charsPref as bs

/-- Rust `str::starts_with` with a string pattern: the pattern's characters
are a prefix of the subject's characters (equivalent to the byte-prefix test
on UTF-8 data). -/
def rsStartsWith (s pre : String) : Bool := charsPref pre.data s.data

/-- Namespace string dispatched to the device-management arm in `main.rs`. -/
def deviceNs : String := "http://www.onvif.org/ver10/device/wsdl"

/-- Namespace string dispatched to the media arm in `main.rs`. -/
def mediaNs : String := "http://www.onvif.org/ver10/media/wsdl"

/-- Namespace string dispatched to the PTZ arm in `main.rs`. -/
def ptzNs : String := "http://www.onvif.org/ver20/ptz/wsdl"

/-- The unused device-model blacklist constant of `main.rs`. -/
def RELATIVE_BLACKLIST : String := "IPD-E24Y00"

/-- Credential validation at the top of `Device::new`: both present or both
absent, otherwise `panic!("Username and password must be specified together")`. -/
def mkCreds : Option String → Option String → Outcome (Option Credentials)
  | some u, some p => .ok (some ⟨u, p⟩)
  | none, none => .ok none
  | some _, none => .panicked ("Username and password must be specified together")
  | none, some _ => .panicked ("Username and password must be specified together")

/-- The service-descriptor loop of `Device::new` (lines 45-73 of `main.rs`):
parse each advertised address, enforce the base-prefix trust boundary, build
a client from the parsed address, and dispatch on the namespace string,
checking the device-management entry against the computed endpoint `dmu`. -/
def bindServices (env : UrlEnv) (base dmu : String) (creds : Option Credentials) :
    List ServiceDescriptor → Device → Except String Device
  | [], out => .ok out
  | s :: rest, out =>
    match env.parse s.x_addr with
    | .error e => .error e
    | .ok u =>
      if rsStartsWith u base then
        let svc : Option Client := some ⟨u, creds⟩
        if s.ns = deviceNs then
          if s.x_addr ≠ dmu then
            .error ("advertised device mgmt uri " ++ s.x_addr ++ " not expected " ++ dmu)
          else
            bindServices env base dmu creds rest out
        else if s.ns = mediaNs then
          bindServices env base dmu creds rest { out with media := svc }
        else if s.ns = ptzNs then
          bindServices env base dmu creds rest { out with ptz := svc }
        else
          bindServices env base dmu creds rest out
      else
        .error ("Service URI " ++ s.x_addr ++ " is not within base URI " ++ base)

/-- The whole of `Device::new`: validate credentials, require a base URL,
join the fixed device-management path, build the device-management client,
invoke get-services (the returned `Bool` records whether that network call
was reached; `services` is its successful response) and run the
service-descriptor loop. -/
def deviceNew (env : UrlEnv) (url : Option String) (usr pwd : Option String)
    (services : List ServiceDescriptor) : Outcome Device × Bool :=
  match mkCreds usr pwd with
  | .panicked m => (.panicked m, false)
  | .err m => (.err m, false)
  | .ok creds =>
    match url with
    | none => (.err ("uri must be specified"), false)
    | some base =>
      match env.join base ("onvif/device_service") with
      | none => (.panicked ("join of onvif/device_service onto base failed"), false)
      | some dmu =>
        match bindServices env base dmu creds services
            { device_mgmt := ⟨dmu, creds⟩, media := none, ptz := none } with
        | .ok d => (.ok d, true)
        | .error e => (.err e, true)

/-- One media profile, abstracted to the token the code copies
(`profile.token.0.clone()`). -/
structure Profile where
  token : String
deriving DecidableEq

/-- A 2D vector with an optional translation-space tag
(`schema::common::Vector2D`). -/
structure Vector2D where
  x : ℚ
  y : ℚ
  space : Option String
deriving DecidableEq

/-- A 1D vector with an optional translation-space tag
(`schema::common::Vector1D`). -/
structure Vector1D where
  x : ℚ
  space : Option String
deriving DecidableEq

/-- A PTZ speed vector (`schema::onvif::Ptzspeed`). -/
structure Ptzspeed where
  pan_tilt : Option Vector2D
  zoom : Option Vector1D
deriving DecidableEq

/-- A PTZ position/translation vector (`schema::onvif::Ptzvector`). -/
structure Ptzvector where
  pan_tilt : Option Vector2D
  zoom : Option Vector1D
deriving DecidableEq

/-- Remote calls and timer suspensions issued by the PTZ orchestration code,
in order.  The continuous-move timeout is recorded in whole seconds (the code
builds it from the fixed literal `"PT5S"`). -/
inductive Command where
  | getProfiles : Command
  | continuousMove : String → Ptzspeed → Option ℕ → Command
  | stop : String → Option Bool → Option Bool → Command
  | relativeMove : String → Ptzvector → Option Ptzspeed → Command
  | sleep : ℕ → Command
deriving DecidableEq

/-- The `get_profile_token` function: `device.media.as_ref().unwrap()` (a
panic when the media client is absent, before any remote call), then a
get-profiles remote call, then `profiles[0]` (an index-out-of-bounds panic
when the returned list is empty), copying the first profile's token. -/
def getProfileToken (dev : Device) (profiles : List Profile) :
    Outcome String × List Command :=
  match dev.media with
  | none => (.panicked ("called Option::unwrap on a None value"), [])
  | some _ =>
    match profiles with
    | [] => (.panicked ("index out of bounds: the len is 0 but the index is 0"),
             [Command.getProfiles])
    | p :: _ => (.ok p.token, [Command.getProfiles])

/-- The `send_continuous_ptz` function: a silent no-op when the PTZ client is
absent; otherwise resolve a profile token and issue a continuous move whose
velocity carries no space tags and whose timeout is the fixed 5 seconds. -/
def sendContinuousPtz (dev : Device) (profiles : List Profile)
    (pan tilt zoom : ℚ) : Outcome Unit × List Command :=
  match dev.ptz with
  | none => (.ok (), [])
  | some _ =>
    match getProfileToken dev profiles with
    | (.ok tok, tr) =>
      (.ok (), tr ++ [Command.continuousMove tok
        ⟨some ⟨pan, tilt, none⟩, some ⟨zoom, none⟩⟩ (some 5)])
    | (.err m, tr) => (.err m, tr)
    | (.panicked m, tr) => (.panicked m, tr)

/-- The `send_stop_ptz` function: a silent no-op when the PTZ client is
absent; otherwise resolve a profile token and issue a stop halting both the
pan/tilt and the zoom axes. -/
def sendStopPtz (dev : Device) (profiles : List Profile) :
    Outcome Unit × List Command :=
  match dev.ptz with
  | none => (.ok (), [])
  | some _ =>
    match getProfileToken dev profiles with
    | (.ok tok, tr) => (.ok (), tr ++ [Command.stop tok (some true) (some true)])
    | (.err m, tr) => (.err m, tr)
    | (.panicked m, tr) => (.panicked m, tr)

/-- The `send_relative_ptz` function: a silent no-op when the PTZ client is
absent; otherwise resolve a profile token and issue a single relative move
whose translation components each carry their named translation-space tag,
with speed unset. -/
def sendRelativePtz (dev : Device) (profiles : List Profile)
    (pan tilt zoom : ℚ) : Outcome Unit × List Command :=
  match dev.ptz with
  | none => (.ok (), [])
  | some _ =>
    match getProfileToken dev profiles with
    | (.ok tok, tr) =>
      (.ok (), tr ++ [Command.relativeMove tok
        ⟨some ⟨pan, tilt, some ("relative_pan_tilt_translation_space")⟩,
         some ⟨zoom, some ("relative_zoom_translation_space")⟩⟩ none])
    | (.err m, tr) => (.err m, tr)
    | (.panicked m, tr) => (.panicked m, tr)

/-- Floor of the real square root of a nonnegative rational, used to embed
the `as u64` truncation of the `f64` square root: for `q = n / d` in lowest
terms, `⌊√(n/d)⌋ = ⌊⌊√(n*d)⌋ / d⌋`. -/
def ratSqrtFloor (q : ℚ) : ℕ := Nat.sqrt (q.num.toNat * q.den) / q.den

/-- The sleep-duration computation of `translate_recenter`, line 185:
`(500.0 * (pan * pan + tilt * tilt).sqrt()) as u64`, embedded exactly as
`⌊√(250000 * (pan² + tilt²))⌋`. -/
def durationMs (pan tilt : ℚ) : ℕ :=
  ratSqrtFloor (250000 * (pan * pan + tilt * tilt))

/-- The `translate_recenter` function: compute `pan = x/w`, `tilt = -y/h`,
`zoom = 0`, issue a continuous move with arguments `(pan, -tilt, zoom)`,
sleep for `(500 * sqrt(pan² + tilt²)) as u64` milliseconds, then issue a
stop.  The `onvif_model` parameter is unused (the blacklist dispatch is
commented out in the source). -/
def translateRecenter (dev : Device) (profiles : List Profile)
    (onvif_model : Option String) (x y rect_width rect_height : ℤ) :
    Outcome Unit × List Command :=
  let pan : ℚ := (x : ℚ) / (rect_width : ℚ)
  let tilt : ℚ := -(y : ℚ) / (rect_height : ℚ)
  let zoom : ℚ := 0
  match sendContinuousPtz dev profiles pan (-tilt) zoom with
  | (.ok _, tr1) =>
    let time := durationMs pan tilt
    match sendStopPtz dev profiles with
    | (r, tr2) => (r, tr1 ++ Command.sleep time :: tr2)
  | (r, tr1) => (r, tr1)

/-! ### Concrete fixtures used by witnesses and counterexamples -/

/-- Concrete instantiation of the external URL library for witnesses:
parsing normalises an address to itself and joining appends the path. -/
def envId : UrlEnv := ⟨fun s => .ok s, fun b p => some (b ++ p)⟩

/-- Concrete device fixture with media and PTZ clients present. -/
def devC : Device :=
  ⟨⟨"http://a/onvif/device_service", none⟩,
   some ⟨"http://a/m", none⟩, some ⟨"http://a/p", none⟩⟩

/-- Concrete profile fixture. -/
def prof1 : Profile := ⟨"prof0"⟩

/-! ### The square-root floor -/

/-- The floor of the square root of a nonnegative rational bounds it below:
`(ratSqrtFloor q)² ≤ q`. -/
theorem ratSqrtFloor_sq_le (q : ℚ) (hq : 0 ≤ q) :
    ((ratSqrtFloor q : ℚ)) ^ 2 ≤ q := by
  have hd0 : 0 < q.den := q.den_pos
  have h1 : ratSqrtFloor q * q.den ≤ Nat.sqrt (q.num.toNat * q.den) :=
    Nat.div_mul_le_self _ _
  have h2 : Nat.sqrt (q.num.toNat * q.den) * Nat.sqrt (q.num.toNat * q.den) ≤
      q.num.toNat * q.den := Nat.sqrt_le _
  have h3 : (ratSqrtFloor q * q.den) * (ratSqrtFloor q * q.den) ≤
      q.num.toNat * q.den := le_trans (Nat.mul_le_mul h1 h1) h2
  have h4 : (ratSqrtFloor q * ratSqrtFloor q * q.den) * q.den ≤
      q.num.toNat * q.den := by
    calc (ratSqrtFloor q * ratSqrtFloor q * q.den) * q.den
        = (ratSqrtFloor q * q.den) * (ratSqrtFloor q * q.den) := by ring
      _ ≤ q.num.toNat * q.den := h3
  have h5 : ratSqrtFloor q * ratSqrtFloor q * q.den ≤ q.num.toNat :=
    Nat.le_of_mul_le_mul_right h4 hd0
  have hnum : ((q.num.toNat : ℤ) : ℚ) = (q.num : ℚ) := by
    exact_mod_cast congrArg (fun z => ((z : ℤ) : ℚ))
      (Int.toNat_of_nonneg (Rat.num_nonneg.mpr hq))
  conv_rhs => rw [← Rat.num_div_den q]
  rw [le_div_iff₀ (by exact_mod_cast hd0)]
  calc ((ratSqrtFloor q : ℚ)) ^ 2 * (q.den : ℚ)
      = ((ratSqrtFloor q * ratSqrtFloor q * q.den : ℕ) : ℚ) := by push_cast; ring
    _ ≤ ((q.num.toNat : ℕ) : ℚ) := by exact_mod_cast h5
    _ = (q.num : ℚ) := by exact_mod_cast hnum

/-- The floor of the square root of a nonnegative rational bounds it above:
`q < (ratSqrtFloor q + 1)²`. -/
theorem ratSqrtFloor_lt_succ_sq (q : ℚ) (hq : 0 ≤ q) :
    q < ((ratSqrtFloor q : ℚ) + 1) ^ 2 := by
  have hd0 : 0 < q.den := q.den_pos
  have h1 : Nat.sqrt (q.num.toNat * q.den) < (ratSqrtFloor q + 1) * q.den := by
    have := Nat.div_add_mod (Nat.sqrt (q.num.toNat * q.den)) q.den
    have hm : Nat.sqrt (q.num.toNat * q.den) % q.den < q.den :=
      Nat.mod_lt _ hd0
    unfold ratSqrtFloor
    nlinarith [this, hm]
  have h2 : q.num.toNat * q.den <
      (Nat.sqrt (q.num.toNat * q.den) + 1) * (Nat.sqrt (q.num.toNat * q.den) + 1) :=
    Nat.lt_succ_sqrt _
  have h3 : Nat.sqrt (q.num.toNat * q.den) + 1 ≤ (ratSqrtFloor q + 1) * q.den := h1
  have h4 : q.num.toNat * q.den <
      ((ratSqrtFloor q + 1) * q.den) * ((ratSqrtFloor q + 1) * q.den) :=
    lt_of_lt_of_le h2 (Nat.mul_le_mul h3 h3)
  have h5 : q.num.toNat < (ratSqrtFloor q + 1) * (ratSqrtFloor q + 1) * q.den := by
    have h6 : (q.num.toNat * q.den : ℕ) <
        ((ratSqrtFloor q + 1) * (ratSqrtFloor q + 1) * q.den) * q.den := by
      calc (q.num.toNat * q.den : ℕ)
          < ((ratSqrtFloor q + 1) * q.den) * ((ratSqrtFloor q + 1) * q.den) := h4
        _ = ((ratSqrtFloor q + 1) * (ratSqrtFloor q + 1) * q.den) * q.den := by ring
    exact Nat.lt_of_mul_lt_mul_right h6
  have hnum : (q.num : ℚ) = ((q.num.toNat : ℕ) : ℚ) := by
    exact_mod_cast (congrArg (fun z => ((z : ℤ) : ℚ))
      (Int.toNat_of_nonneg (Rat.num_nonneg.mpr hq))).symm
  conv_lhs => rw [← Rat.num_div_den q]
  rw [div_lt_iff₀ (by exact_mod_cast hd0)]
  calc (q.num : ℚ) = ((q.num.toNat : ℕ) : ℚ) := hnum
    _ < (((ratSqrtFloor q + 1) * (ratSqrtFloor q + 1) * q.den : ℕ) : ℚ) := by
        exact_mod_cast h5
    _ = ((ratSqrtFloor q : ℚ) + 1) ^ 2 * (q.den : ℚ) := by push_cast; ring

/-- Monotonicity of the square-root floor on nonnegative rationals. -/
theorem ratSqrtFloor_mono {a b : ℚ} (ha : 0 ≤ a) (hab : a ≤ b) :
    ratSqrtFloor a ≤ ratSqrtFloor b := by
  by_contra hcon
  push_neg at hcon
  have h1 : ((ratSqrtFloor a : ℚ)) ^ 2 ≤ a := ratSqrtFloor_sq_le a ha
  have h2 : b < ((ratSqrtFloor b : ℚ) + 1) ^ 2 :=
    ratSqrtFloor_lt_succ_sq b (le_trans ha hab)
  have h3 : (ratSqrtFloor b + 1 : ℕ) ≤ ratSqrtFloor a := hcon
  have h4 : ((ratSqrtFloor b : ℚ) + 1) ≤ (ratSqrtFloor a : ℚ) := by
    exact_mod_cast h3
  have h5 : ((ratSqrtFloor b : ℚ) + 1) ^ 2 ≤ ((ratSqrtFloor a : ℚ)) ^ 2 :=
    pow_le_pow_left₀ (by positivity) h4 2
  linarith

/-- The sleep duration is monotonically non-decreasing in `pan² + tilt²`
(equivalently, in `sqrt(pan² + tilt²)`). -/
theorem durationMs_mono {p1 t1 p2 t2 : ℚ}
    (h : p1 * p1 + t1 * t1 ≤ p2 * p2 + t2 * t2) :
    durationMs p1 t1 ≤ durationMs p2 t2 := by
  apply ratSqrtFloor_mono
  · nlinarith [mul_self_nonneg p1, mul_self_nonneg t1]
  · nlinarith

/-- Unfolding equation for `ratSqrtFloor`, stated generically so that
instantiating it at numerals never forces kernel evaluation. -/
theorem ratSqrtFloor_eq (q : ℚ) :
    ratSqrtFloor q = Nat.sqrt (q.num.toNat * q.den) / q.den := rfl

/-- Unfolding equation for `durationMs`. -/
theorem durationMs_eq (pan tilt : ℚ) :
    durationMs pan tilt = ratSqrtFloor (250000 * (pan * pan + tilt * tilt)) := rfl

/-- At zero pan and tilt the sleep duration is zero. -/
theorem durationMs_zero : durationMs 0 0 = 0 := by
  have harg : (250000 : ℚ) * ((0 : ℚ) * 0 + 0 * 0) = 0 := by norm_num
  rw [durationMs_eq, harg, ratSqrtFloor_eq]
  simp

/-- At pan = tilt = 1/2 the sleep duration is 353 milliseconds, the
truncation of `500 * sqrt(1/2) ≈ 353.55`. -/
theorem durationMs_half : durationMs (1 / 2) (1 / 2) = 353 := by
  have harg : (250000 : ℚ) * ((1 / 2 : ℚ) * (1 / 2) + (1 / 2) * (1 / 2)) = 125000 := by
    norm_num
  rw [durationMs_eq, harg, ratSqrtFloor_eq]
  have hnum : ((125000 : ℚ).num.toNat * (125000 : ℚ).den) = 125000 := by simp
  have hden : (125000 : ℚ).den = 1 := by simp
  rw [hnum, hden, Nat.div_one]
  have hle : 353 ≤ Nat.sqrt 125000 := Nat.le_sqrt.mpr (by norm_num)
  have hlt : Nat.sqrt 125000 < 354 := Nat.sqrt_lt.mpr (by norm_num)
  omega

/-! ### The discovery loop -/

/-- A descriptor passes all per-entry checks of the discovery loop: its
address parses, the parsed address passes the base-prefix trust check, and
if it advertises the device-management namespace its raw address equals the
computed device-management endpoint `dmu`. -/
def entryOk (env : UrlEnv) (base dmu : String) (s : ServiceDescriptor) : Prop :=
  ∃ u, env.parse s.x_addr = .ok u ∧ rsStartsWith u base = true ∧
    (s.ns = deviceNs → s.x_addr = dmu)

/-- Address a descriptor's client is bound to (meaningful when the address
parses). -/
def parsedAddr (env : UrlEnv) (s : ServiceDescriptor) : String :=
  match env.parse s.x_addr with
  | .ok u => u
  | .error _ => ""

/-- The client recorded for namespace `target` after folding a descriptor
list: a later matching entry overwrites an earlier one. -/
def finalSvc (env : UrlEnv) (creds : Option Credentials) (target : String) :
    List ServiceDescriptor → Option Client → Option Client
  | [], acc => acc
  | s :: rest, acc =>
    if s.ns = target then
      finalSvc env creds target rest (some ⟨parsedAddr env s, creds⟩)
    else
      finalSvc env creds target rest acc

/-- The three service namespaces are pairwise distinct strings. -/
theorem deviceNs_ne_mediaNs : ¬ deviceNs = mediaNs := by decide

/-- Distinctness of the device-management and PTZ namespaces. -/
theorem deviceNs_ne_ptzNs : ¬ deviceNs = ptzNs := by decide

/-- Distinctness of the media and PTZ namespaces. -/
theorem mediaNs_ne_ptzNs : ¬ mediaNs = ptzNs := by decide

/-- Distinctness of the media and device-management namespaces. -/
theorem mediaNs_ne_deviceNs : ¬ mediaNs = deviceNs := by decide

/-- Distinctness of the PTZ and device-management namespaces. -/
theorem ptzNs_ne_deviceNs : ¬ ptzNs = deviceNs := by decide

/-- Distinctness of the PTZ and media namespaces. -/
theorem ptzNs_ne_mediaNs : ¬ ptzNs = mediaNs := by decide

/-- When the head descriptor passes all checks (or steps to a recursive
call), the loop on a cons reduces to the loop on the tail; this helper
performs the head-step case analysis once.  `step` describes the accumulator
passed on. -/
theorem bind_cons_step (env : UrlEnv) (base dmu : String)
    (creds : Option Credentials) (s : ServiceDescriptor)
    (rest : List ServiceDescriptor) (out : Device) (v : String)
    (hp : env.parse s.x_addr = .ok v) (hsw : rsStartsWith v base = true)
    (hdev : s.ns = deviceNs → s.x_addr = dmu) :
    bindServices env base dmu creds (s :: rest) out =
      bindServices env base dmu creds rest
        (if s.ns = mediaNs then { out with media := some ⟨v, creds⟩ }
         else if s.ns = ptzNs then { out with ptz := some ⟨v, creds⟩ }
         else out) := by
  simp only [bindServices]
  rw [hp]
  simp only [hsw, if_true]
  by_cases hd : s.ns = deviceNs
  · have hx := hdev hd
    have hdm : ¬ s.ns = mediaNs := by rw [hd]; exact deviceNs_ne_mediaNs
    have hdp : ¬ s.ns = ptzNs := by rw [hd]; exact deviceNs_ne_ptzNs
    simp [hd, hx, hdm, hdp, deviceNs_ne_mediaNs, deviceNs_ne_ptzNs]
  · by_cases hm : s.ns = mediaNs
    · have hmp : ¬ s.ns = ptzNs := by rw [hm]; exact mediaNs_ne_ptzNs
      simp [hd, hm, hmp, mediaNs_ne_deviceNs, mediaNs_ne_ptzNs]
    · by_cases hz : s.ns = ptzNs
      · simp [hd, hm, hz, ptzNs_ne_deviceNs, ptzNs_ne_mediaNs]
      · simp [hd, hm, hz]

/-- Any descriptor whose parsed address fails the base-prefix check forces
the whole loop into an error, whatever the accumulated device state. -/
theorem bind_err_of_violation (env : UrlEnv) (base dmu : String)
    (creds : Option Credentials) :
    ∀ (l : List ServiceDescriptor) (out : Device),
      (∃ s ∈ l, ∃ u, env.parse s.x_addr = .ok u ∧ rsStartsWith u base = false) →
      ∃ e, bindServices env base dmu creds l out = .error e := by
  intro l
  induction l with
  | nil =>
    intro out hviol
    simp at hviol
  | cons s rest ih =>
    intro out hviol
    rcases hviol with ⟨t, ht, u, hpu, hswu⟩
    rcases List.mem_cons.mp ht with rfl | htr
    · refine ⟨"Service URI " ++ t.x_addr ++ " is not within base URI " ++ base, ?_⟩
      simp only [bindServices]
      rw [hpu]
      simp [hswu]
    · cases hp : env.parse s.x_addr with
      | error e =>
        refine ⟨e, ?_⟩
        simp only [bindServices]
        rw [hp]
      | ok v =>
        by_cases hsw : rsStartsWith v base = true
        · by_cases hd : s.ns = deviceNs
          · by_cases hx : s.x_addr = dmu
            · obtain ⟨e, he⟩ := ih out ⟨t, htr, u, hpu, hswu⟩
              refine ⟨e, ?_⟩
              rw [bind_cons_step env base dmu creds s rest out v hp hsw (fun _ => hx)]
              have hdm : ¬ s.ns = mediaNs := by rw [hd]; exact deviceNs_ne_mediaNs
              have hdp : ¬ s.ns = ptzNs := by rw [hd]; exact deviceNs_ne_ptzNs
              simpa [hdm, hdp] using he
            · refine ⟨"advertised device mgmt uri " ++ s.x_addr ++ " not expected " ++ dmu, ?_⟩
              simp only [bindServices]
              rw [hp]
              simp [hsw, hd, hx]
          · rcases (ih (if s.ns = mediaNs then { out with media := some ⟨v, creds⟩ }
                else if s.ns = ptzNs then { out with ptz := some ⟨v, creds⟩ }
                else out) ⟨t, htr, u, hpu, hswu⟩) with ⟨e, he⟩
            refine ⟨e, ?_⟩
            rw [bind_cons_step env base dmu creds s rest out v hp hsw
              (fun hcon => absurd hcon hd)]
            exact he
        · refine ⟨"Service URI " ++ s.x_addr ++ " is not within base URI " ++ base, ?_⟩
          simp only [bindServices]
          rw [hp]
          simp [hsw]

/-- When every descriptor before it passes its checks, the first
trust-boundary violator aborts the loop with exactly the trust-boundary
error, regardless of the entries after it. -/
theorem bind_trust_first (env : UrlEnv) (base dmu : String)
    (creds : Option Credentials) :
    ∀ (l1 : List ServiceDescriptor) (bad : ServiceDescriptor)
      (l2 : List ServiceDescriptor) (out : Device) (u : String),
      (∀ s ∈ l1, entryOk env base dmu s) →
      env.parse bad.x_addr = .ok u →
      rsStartsWith u base = false →
      bindServices env base dmu creds (l1 ++ bad :: l2) out =
        .error ("Service URI " ++ bad.x_addr ++ " is not within base URI " ++ base) := by
  intro l1
  induction l1 with
  | nil =>
    intro bad l2 out u _ hp hsw
    simp [bindServices, hp, hsw]
  | cons s rest ih =>
    intro bad l2 out u hOk hp hsw
    obtain ⟨v, hpv, hswv, hdev⟩ := hOk s (List.mem_cons_self s rest)
    have hrest : ∀ t ∈ rest, entryOk env base dmu t :=
      fun t ht => hOk t (List.mem_cons_of_mem s ht)
    rw [List.cons_append,
      bind_cons_step env base dmu creds s (rest ++ bad :: l2) out v hpv hswv hdev]
    exact ih bad l2 _ u hrest hp hsw

/-- Any descriptor advertising the device-management namespace with a raw
address different from the computed endpoint forces the loop into an error. -/
theorem bind_err_of_mgmt (env : UrlEnv) (base dmu : String)
    (creds : Option Credentials) :
    ∀ (l : List ServiceDescriptor) (out : Device),
      (∃ s ∈ l, s.ns = deviceNs ∧ s.x_addr ≠ dmu) →
      ∃ e, bindServices env base dmu creds l out = .error e := by
  intro l
  induction l with
  | nil =>
    intro out hbad
    simp at hbad
  | cons s rest ih =>
    intro out hbad
    rcases hbad with ⟨t, ht, htd, htx⟩
    rcases List.mem_cons.mp ht with rfl | htr
    · cases hp : env.parse t.x_addr with
      | error e =>
        refine ⟨e, ?_⟩
        simp only [bindServices]
        rw [hp]
      | ok v =>
        by_cases hsw : rsStartsWith v base = true
        · refine ⟨"advertised device mgmt uri " ++ t.x_addr ++ " not expected " ++ dmu, ?_⟩
          simp only [bindServices]
          rw [hp]
          simp [hsw, htd, htx]
        · refine ⟨"Service URI " ++ t.x_addr ++ " is not within base URI " ++ base, ?_⟩
          simp only [bindServices]
          rw [hp]
          simp [hsw]
    · cases hp : env.parse s.x_addr with
      | error e =>
        refine ⟨e, ?_⟩
        simp only [bindServices]
        rw [hp]
      | ok v =>
        by_cases hsw : rsStartsWith v base = true
        · by_cases hd : s.ns = deviceNs
          · by_cases hx : s.x_addr = dmu
            · obtain ⟨e, he⟩ := ih out ⟨t, htr, htd, htx⟩
              refine ⟨e, ?_⟩
              rw [bind_cons_step env base dmu creds s rest out v hp hsw (fun _ => hx)]
              have hdm : ¬ s.ns = mediaNs := by rw [hd]; exact deviceNs_ne_mediaNs
              have hdp : ¬ s.ns = ptzNs := by rw [hd]; exact deviceNs_ne_ptzNs
              simpa [hdm, hdp] using he
            · refine ⟨"advertised device mgmt uri " ++ s.x_addr ++ " not expected " ++ dmu, ?_⟩
              simp only [bindServices]
              rw [hp]
              simp [hsw, hd, hx]
          · rcases (ih (if s.ns = mediaNs then { out with media := some ⟨v, creds⟩ }
                else if s.ns = ptzNs then { out with ptz := some ⟨v, creds⟩ }
                else out) ⟨t, htr, htd, htx⟩) with ⟨e, he⟩
            refine ⟨e, ?_⟩
            rw [bind_cons_step env base dmu creds s rest out v hp hsw
              (fun hcon => absurd hcon hd)]
            exact he
        · refine ⟨"Service URI " ++ s.x_addr ++ " is not within base URI " ++ base, ?_⟩
          simp only [bindServices]
          rw [hp]
          simp [hsw]

/-- When every descriptor passes its checks the loop succeeds, leaving the
device-management client untouched and recording for media and PTZ the
client of the last matching descriptor. -/
theorem bind_ok_of_entryOk (env : UrlEnv) (base dmu : String)
    (creds : Option Credentials) :
    ∀ (l : List ServiceDescriptor) (out : Device),
      (∀ s ∈ l, entryOk env base dmu s) →
      bindServices env base dmu creds l out =
        .ok ⟨out.device_mgmt, finalSvc env creds mediaNs l out.media,
             finalSvc env creds ptzNs l out.ptz⟩ := by
  intro l
  induction l with
  | nil =>
    intro out _
    simp [bindServices, finalSvc]
  | cons s rest ih =>
    intro out hOk
    obtain ⟨v, hpv, hswv, hdev⟩ := hOk s (List.mem_cons_self s rest)
    have hrest : ∀ t ∈ rest, entryOk env base dmu t :=
      fun t ht => hOk t (List.mem_cons_of_mem s ht)
    have hpa : parsedAddr env s = v := by simp [parsedAddr, hpv]
    rw [bind_cons_step env base dmu creds s rest out v hpv hswv hdev]
    rw [ih _ hrest]
    by_cases hd : s.ns = deviceNs
    · have hdm : ¬ s.ns = mediaNs := by rw [hd]; exact deviceNs_ne_mediaNs
      have hdp : ¬ s.ns = ptzNs := by rw [hd]; exact deviceNs_ne_ptzNs
      simp [finalSvc, hdm, hdp, deviceNs_ne_mediaNs, deviceNs_ne_ptzNs]
    · by_cases hm : s.ns = mediaNs
      · have hmp : ¬ s.ns = ptzNs := by rw [hm]; exact mediaNs_ne_ptzNs
        simp [finalSvc, hd, hm, hmp, hpa, mediaNs_ne_deviceNs, mediaNs_ne_ptzNs]
      · by_cases hz : s.ns = ptzNs
        · simp [finalSvc, hd, hm, hz, hpa, ptzNs_ne_deviceNs, ptzNs_ne_mediaNs]
        · simp [finalSvc, hd, hm, hz]

/-- The folded client for a namespace is present iff the accumulator already
held one or some descriptor in the list matches the namespace. -/
theorem finalSvc_isSome (env : UrlEnv) (creds : Option Credentials)
    (target : String) :
    ∀ (l : List ServiceDescriptor) (acc : Option Client),
      (finalSvc env creds target l acc).isSome = true ↔
        (acc.isSome = true ∨ ∃ s ∈ l, s.ns = target) := by
  intro l
  induction l with
  | nil =>
    intro acc
    simp [finalSvc]
  | cons s rest ih =>
    intro acc
    by_cases h : s.ns = target
    · rw [show finalSvc env creds target (s :: rest) acc =
          finalSvc env creds target rest (some ⟨parsedAddr env s, creds⟩) by
            simp [finalSvc, h]]
      rw [ih]
      constructor
      · intro _
        exact Or.inr ⟨s, List.mem_cons_self s rest, h⟩
      · intro _
        exact Or.inl (by simp)
    · rw [show finalSvc env creds target (s :: rest) acc =
          finalSvc env creds target rest acc by simp [finalSvc, h]]
      rw [ih]
      constructor
      · rintro (hc | ⟨t, ht, htt⟩)
        · exact Or.inl hc
        · exact Or.inr ⟨t, List.mem_cons_of_mem s ht, htt⟩
      · rintro (hc | ⟨t, ht, htt⟩)
        · exact Or.inl hc
        · rcases List.mem_cons.mp ht with rfl | ht2
          · exact absurd htt h
          · exact Or.inr ⟨t, ht2, htt⟩

/-- Appending one descriptor: a matching final entry overwrites whatever the
earlier entries recorded — the fold keeps the last match. -/
theorem finalSvc_append (env : UrlEnv) (creds : Option Credentials)
    (target : String) :
    ∀ (l : List ServiceDescriptor) (s : ServiceDescriptor) (acc : Option Client),
      finalSvc env creds target (l ++ [s]) acc =
        if s.ns = target then some ⟨parsedAddr env s, creds⟩
        else finalSvc env creds target l acc := by
  intro l
  induction l with
  | nil =>
    intro s acc
    by_cases h : s.ns = target <;> simp [finalSvc, h]
  | cons a l ih =>
    intro s acc
    by_cases ha : a.ns = target <;> simp [finalSvc, ha, ih]

/-! ### The recenter trace -/

/-- Additional concrete fixture: a device with no PTZ client. -/
def devNoPtz : Device := ⟨⟨"http://a/onvif/device_service", none⟩, none, none⟩

/-- Concrete discovery response with duplicate media entries and a PTZ entry. -/
def svcs3 : List ServiceDescriptor :=
  [⟨"http://a/m1", mediaNs⟩, ⟨"http://a/m2", mediaNs⟩, ⟨"http://a/p1", ptzNs⟩]

/-- Complete command trace of a timed recenter when PTZ and media clients are
present and the profile list is non-empty: one get-profiles and one
continuous move (velocity `(x/w, y/h)`, the tilt double-negated), the
computed sleep, then one get-profiles and one stop on both axes. -/
theorem translateRecenter_trace (dev : Device) (c m : Client) (p : Profile)
    (rest : List Profile) (model : Option String) (x y w h : ℤ)
    (hptz : dev.ptz = some c) (hmed : dev.media = some m) :
    translateRecenter dev (p :: rest) model x y w h =
      (.ok (), [Command.getProfiles,
        Command.continuousMove p.token
          ⟨some ⟨(x : ℚ) / (w : ℚ), (y : ℚ) / (h : ℚ), none⟩, some ⟨0, none⟩⟩ (some 5),
        Command.sleep (durationMs ((x : ℚ) / (w : ℚ)) (-(y : ℚ) / (h : ℚ))),
        Command.getProfiles,
        Command.stop p.token (some true) (some true)]) := by
  simp [translateRecenter, sendContinuousPtz, sendStopPtz, getProfileToken,
    hptz, hmed, neg_div, neg_neg]

/-! ### Claims -/

/-- C1: in a discovery response containing a descriptor whose parsed address
does not start with the base address string, `Device::new` returns an error
(no Session is produced), and when the earlier entries all pass their checks
the loop stops at the first violating entry with the trust-boundary error,
independently of the entries after it. -/
theorem trust_violation_aborts_discovery (env : UrlEnv) (base dmu : String)
    (usr pwd : Option String) (creds : Option Credentials)
    (svcs : List ServiceDescriptor)
    (hc : mkCreds usr pwd = .ok creds)
    (hj : env.join base ("onvif/device_service") = some dmu) :
    ((∃ s ∈ svcs, ∃ u, env.parse s.x_addr = .ok u ∧ rsStartsWith u base = false) →
      Outcome.isErr (deviceNew env (some base) usr pwd svcs).1 = true)
    ∧ (∀ l1 bad l2 u, svcs = l1 ++ bad :: l2 →
        (∀ s ∈ l1, entryOk env base dmu s) →
        env.parse bad.x_addr = .ok u →
        rsStartsWith u base = false →
        deviceNew env (some base) usr pwd svcs =
          (.err ("Service URI " ++ bad.x_addr ++ " is not within base URI " ++ base),
           true)) := by
  constructor
  · intro hviol
    obtain ⟨e, he⟩ := bind_err_of_violation env base dmu creds svcs
      ⟨⟨dmu, creds⟩, none, none⟩ hviol
    simp [deviceNew, hc, hj, he, Outcome.isErr]
  · intro l1 bad l2 u hsplit hok hp hsw
    subst hsplit
    have hb := bind_trust_first env base dmu creds l1 bad l2
      ⟨⟨dmu, creds⟩, none, none⟩ u hok hp hsw
    simp [deviceNew, hc, hj, hb]

/-- Witness for C1 at a concrete response whose single entry parses to an
address outside the base. -/
theorem trust_violation_aborts_discovery_witness :
    deviceNew envId (some ("http://a/")) none none [⟨"zzz", mediaNs⟩] =
      (.err ("Service URI " ++ "zzz" ++ " is not within base URI " ++ "http://a/"),
       true) :=
  (trust_violation_aborts_discovery envId ("http://a/")
      ("http://a/onvif/device_service") none none none [⟨"zzz", mediaNs⟩]
      rfl (by decide)).2
    [] ⟨"zzz", mediaNs⟩ [] "zzz" rfl (by simp) rfl (by decide)

/-- C2: in a discovery response containing a descriptor with the
device-management namespace whose advertised address differs from the
computed device-management endpoint, `Device::new` returns an error and no
Session value. -/
theorem devicemgmt_mismatch_aborts_binding (env : UrlEnv) (base dmu : String)
    (usr pwd : Option String) (creds : Option Credentials)
    (svcs : List ServiceDescriptor)
    (hc : mkCreds usr pwd = .ok creds)
    (hj : env.join base ("onvif/device_service") = some dmu)
    (hbad : ∃ s ∈ svcs, s.ns = deviceNs ∧ s.x_addr ≠ dmu) :
    Outcome.isErr (deviceNew env (some base) usr pwd svcs).1 = true ∧
    Outcome.isOk (deviceNew env (some base) usr pwd svcs).1 = false := by
  obtain ⟨e, he⟩ := bind_err_of_mgmt env base dmu creds svcs
    ⟨⟨dmu, creds⟩, none, none⟩ hbad
  constructor
  · simp [deviceNew, hc, hj, he, Outcome.isErr]
  · simp [deviceNew, hc, hj, he, Outcome.isOk]

/-- Witness for C2 at a concrete response advertising a mismatching
device-management address. -/
theorem devicemgmt_mismatch_aborts_binding_witness :
    Outcome.isErr (deviceNew envId (some ("http://a/")) none none
      [⟨"http://a/bad", deviceNs⟩]).1 = true ∧
    Outcome.isOk (deviceNew envId (some ("http://a/")) none none
      [⟨"http://a/bad", deviceNs⟩]).1 = false :=
  devicemgmt_mismatch_aborts_binding envId ("http://a/")
    ("http://a/onvif/device_service") none none none
    [⟨"http://a/bad", deviceNs⟩] rfl (by decide)
    ⟨⟨"http://a/bad", deviceNs⟩, by simp, rfl, by decide⟩

/-- C3 counterexample: with two media descriptors both passing the checks,
the bound media client carries the address of the second (last) entry, not
the first, refuting the claim's first-match binding. -/
theorem duplicate_media_first_match_cex :
    (deviceNew envId (some ("http://a/")) none none
        [⟨"http://a/m1", mediaNs⟩, ⟨"http://a/m2", mediaNs⟩]).1 =
      .ok ⟨⟨"http://a/onvif/device_service", none⟩,
           some ⟨"http://a/m2", none⟩, none⟩ ∧
    ¬ ("http://a/m2" : String) = "http://a/m1" := by
  constructor
  · decide
  · decide

/-- C3 (amended): when every descriptor passes the checks, binding succeeds
and the Session has a media (resp. PTZ) client iff some descriptor carries
the media (resp. PTZ) namespace; on duplicates the recorded client is the
one of the last matching descriptor (later entries overwrite earlier ones,
as the `finalSvc` fold and its append law state). -/
theorem session_clients_iff_advertised (env : UrlEnv) (base dmu : String)
    (usr pwd : Option String) (creds : Option Credentials)
    (svcs : List ServiceDescriptor)
    (hc : mkCreds usr pwd = .ok creds)
    (hj : env.join base ("onvif/device_service") = some dmu)
    (hok : ∀ s ∈ svcs, entryOk env base dmu s) :
    deviceNew env (some base) usr pwd svcs =
      (.ok ⟨⟨dmu, creds⟩, finalSvc env creds mediaNs svcs none,
            finalSvc env creds ptzNs svcs none⟩, true) ∧
    ((finalSvc env creds mediaNs svcs none).isSome = true ↔
      ∃ s ∈ svcs, s.ns = mediaNs) ∧
    ((finalSvc env creds ptzNs svcs none).isSome = true ↔
      ∃ s ∈ svcs, s.ns = ptzNs) ∧
    (∀ l s acc, finalSvc env creds mediaNs (l ++ [s]) acc =
        if s.ns = mediaNs then some ⟨parsedAddr env s, creds⟩
        else finalSvc env creds mediaNs l acc) ∧
    (∀ l s acc, finalSvc env creds ptzNs (l ++ [s]) acc =
        if s.ns = ptzNs then some ⟨parsedAddr env s, creds⟩
        else finalSvc env creds ptzNs l acc) := by
  refine ⟨?_, ?_, ?_, finalSvc_append env creds mediaNs, finalSvc_append env creds ptzNs⟩
  · have hb := bind_ok_of_entryOk env base dmu creds svcs
      ⟨⟨dmu, creds⟩, none, none⟩ hok
    simp [deviceNew, hc, hj, hb]
  · simpa using finalSvc_isSome env creds mediaNs svcs none
  · simpa using finalSvc_isSome env creds ptzNs svcs none

/-- Witness for C3 at a concrete response with two media entries and one PTZ
entry, all passing the checks. -/
theorem session_clients_iff_advertised_witness :
    deviceNew envId (some ("http://a/")) none none svcs3 =
      (.ok ⟨⟨"http://a/onvif/device_service", none⟩,
            finalSvc envId none mediaNs svcs3 none,
            finalSvc envId none ptzNs svcs3 none⟩, true) :=
  (session_clients_iff_advertised envId ("http://a/")
      ("http://a/onvif/device_service") none none none svcs3 rfl (by decide)
      (by
        intro s hs
        fin_cases hs
        · exact ⟨"http://a/m1", rfl, by decide, fun hcon => absurd hcon (by decide)⟩
        · exact ⟨"http://a/m2", rfl, by decide, fun hcon => absurd hcon (by decide)⟩
        · exact ⟨"http://a/p1", rfl, by decide, fun hcon => absurd hcon (by decide)⟩)).1

/-- C4 counterexample: with a username and no password, `Device::new` panics
rather than returning an error value, so no `ConfigError` result is ever
produced. -/
theorem single_credential_err_result_cex :
    (deviceNew envId (some ("http://a/")) (some ("user")) none []).1 =
      .panicked ("Username and password must be specified together") ∧
    Outcome.isErr (deviceNew envId (some ("http://a/")) (some ("user")) none []).1 =
      false := ⟨rfl, rfl⟩

/-- C4 (amended): whenever exactly one of username and password is provided,
`Device::new` panics with the credentials message before any network
activity — the get-services call is never reached (the `Bool` component is
`false`). -/
theorem single_credential_panics_before_network (env : UrlEnv)
    (url : Option String) (usr pwd : Option String)
    (svcs : List ServiceDescriptor) (hone : usr.isSome ≠ pwd.isSome) :
    deviceNew env url usr pwd svcs =
      (.panicked ("Username and password must be specified together"), false) := by
  cases usr with
  | none =>
    cases pwd with
    | none => simp at hone
    | some p => simp [deviceNew, mkCreds]
  | some u =>
    cases pwd with
    | none => simp [deviceNew, mkCreds]
    | some p => simp at hone

/-- Witness for C4 at a concrete call with only a password. -/
theorem single_credential_panics_before_network_witness :
    deviceNew envId (some ("http://a/")) none (some ("pw")) [] =
      (.panicked ("Username and password must be specified together"), false) :=
  single_credential_panics_before_network envId (some ("http://a/")) none
    (some ("pw")) [] (by decide)

/-- C5 counterexample: at `x = 50, y = -50, w = h = 100` the issued
continuous move carries tilt `-1/2`, the negation of the claimed value
`-y/h = 1/2` — the double negation is real. -/
theorem recenter_tilt_sign_cex :
    ((translateRecenter devC [prof1] none 50 (-50) 100 100).2)[1]? =
      some (Command.continuousMove ("prof0")
        ⟨some ⟨1 / 2, -(1 / 2), none⟩, some ⟨0, none⟩⟩ (some 5)) ∧
    ¬ (-(1 / 2) : ℚ) = 1 / 2 := by
  constructor
  · rw [translateRecenter_trace devC ⟨"http://a/p", none⟩ ⟨"http://a/m", none⟩
      prof1 [] none 50 (-50) 100 100 rfl rfl]
    norm_num [prof1]
  · norm_num

/-- C5 (amended): for a timed recenter with nonzero width and height, the
velocity supplied to the continuous move has pan `x/w` and tilt `y/h` — the
negation of the computed tilt `-y/h`, because `translate_recenter` passes
`-tilt` into `send_continuous_ptz` — with zoom 0 and the fixed timeout. -/
theorem recenter_velocity_components (dev : Device) (c m : Client) (p : Profile)
    (rest : List Profile) (model : Option String) (x y w h : ℤ)
    (hw : w ≠ 0) (hh : h ≠ 0)
    (hptz : dev.ptz = some c) (hmed : dev.media = some m) :
    ((translateRecenter dev (p :: rest) model x y w h).2)[1]? =
      some (Command.continuousMove p.token
        ⟨some ⟨(x : ℚ) / (w : ℚ), (y : ℚ) / (h : ℚ), none⟩, some ⟨0, none⟩⟩
        (some 5)) ∧
    (y : ℚ) / (h : ℚ) = -(-(y : ℚ) / (h : ℚ)) := by
  constructor
  · rw [translateRecenter_trace dev c m p rest model x y w h hptz hmed]
    rfl
  · rw [neg_div, neg_neg]

/-- Witness for C5 at concrete inputs `x = 4, y = 6, w = 2, h = 3`. -/
theorem recenter_velocity_components_witness :
    ((translateRecenter devC [prof1] none 4 6 2 3).2)[1]? =
      some (Command.continuousMove ("prof0")
        ⟨some ⟨2, 2, none⟩, some ⟨0, none⟩⟩ (some 5)) := by
  have hcl := recenter_velocity_components devC ⟨"http://a/p", none⟩
    ⟨"http://a/m", none⟩ prof1 [] none 4 6 2 3 (by decide) (by decide) rfl rfl
  rw [hcl.1]
  norm_num [prof1]

/-- C6 counterexample: at `x = 50, y = -50, w = h = 100` the computed sleep
is 353 ms — the `as u64` truncation of `500·sqrt(0.5) ≈ 353.55` — not the
claimed 354. -/
theorem recenter_duration_354_cex :
    ((translateRecenter devC [prof1] none 50 (-50) 100 100).2)[2]? =
      some (Command.sleep 353) ∧ ¬ (353 : ℕ) = 354 := by
  constructor
  · rw [translateRecenter_trace devC ⟨"http://a/p", none⟩ ⟨"http://a/m", none⟩
      prof1 [] none 50 (-50) 100 100 rfl rfl]
    have h1 : ((50 : ℤ) : ℚ) / ((100 : ℤ) : ℚ) = 1 / 2 := by norm_num
    have h2 : (-((-50 : ℤ) : ℚ)) / ((100 : ℤ) : ℚ) = 1 / 2 := by norm_num
    rw [h1, h2, durationMs_half]
    rfl
  · decide

/-- C6 (amended): the sleep duration is the floor `⌊500·sqrt(pan²+tilt²)⌋`
(`durationMs`), it is monotonically non-decreasing in `pan²+tilt²`, it is 0
at pan = tilt = 0 (no division by zero, no negative sleep), and at the
example input it is 353 ms. -/
theorem recenter_duration_floor (dev : Device) (c m : Client) (p : Profile)
    (rest : List Profile) (model : Option String) (x y w h : ℤ)
    (hptz : dev.ptz = some c) (hmed : dev.media = some m) :
    ((translateRecenter dev (p :: rest) model x y w h).2)[2]? =
      some (Command.sleep (durationMs ((x : ℚ) / (w : ℚ)) (-(y : ℚ) / (h : ℚ)))) ∧
    (∀ p1 t1 p2 t2 : ℚ, p1 * p1 + t1 * t1 ≤ p2 * p2 + t2 * t2 →
      durationMs p1 t1 ≤ durationMs p2 t2) ∧
    durationMs 0 0 = 0 ∧
    durationMs (1 / 2) (1 / 2) = 353 := by
  refine ⟨?_, fun p1 t1 p2 t2 hle => durationMs_mono hle,
    durationMs_zero, durationMs_half⟩
  rw [translateRecenter_trace dev c m p rest model x y w h hptz hmed]
  rfl

/-- Witness for C6 at the example input, plus an instance of monotonicity. -/
theorem recenter_duration_floor_witness :
    ((translateRecenter devC [prof1] none 50 (-50) 100 100).2)[2]? =
      some (Command.sleep 353) ∧ durationMs 0 0 ≤ durationMs 1 1 := by
  have hcl := recenter_duration_floor devC ⟨"http://a/p", none⟩
    ⟨"http://a/m", none⟩ prof1 [] none 50 (-50) 100 100 rfl rfl
  constructor
  · rw [hcl.1]
    have h1 : ((50 : ℤ) : ℚ) / ((100 : ℤ) : ℚ) = 1 / 2 := by norm_num
    have h2 : (-((-50 : ℤ) : ℚ)) / ((100 : ℤ) : ℚ) = 1 / 2 := by norm_num
    rw [h1, h2, durationMs_half]
  · exact hcl.2.1 0 0 1 1 (by norm_num)

/-- C7: a timed recenter with a PTZ client present issues exactly one
continuous move, then the computed sleep, then exactly one stop halting both
axes — in that order, with no other motion commands (the only other trace
entries are the get-profiles resolutions). -/
theorem recenter_command_sequence (dev : Device) (c m : Client) (p : Profile)
    (rest : List Profile) (model : Option String) (x y w h : ℤ)
    (hptz : dev.ptz = some c) (hmed : dev.media = some m) :
    translateRecenter dev (p :: rest) model x y w h =
      (.ok (), [Command.getProfiles,
        Command.continuousMove p.token
          ⟨some ⟨(x : ℚ) / (w : ℚ), (y : ℚ) / (h : ℚ), none⟩, some ⟨0, none⟩⟩ (some 5),
        Command.sleep (durationMs ((x : ℚ) / (w : ℚ)) (-(y : ℚ) / (h : ℚ))),
        Command.getProfiles,
        Command.stop p.token (some true) (some true)]) :=
  translateRecenter_trace dev c m p rest model x y w h hptz hmed

/-- Witness for C7 at the zero displacement input. -/
theorem recenter_command_sequence_witness :
    translateRecenter devC [prof1] none 0 0 1 1 =
      (.ok (), [Command.getProfiles,
        Command.continuousMove ("prof0") ⟨some ⟨0, 0, none⟩, some ⟨0, none⟩⟩ (some 5),
        Command.sleep 0,
        Command.getProfiles,
        Command.stop ("prof0") (some true) (some true)]) := by
  have hcl := recenter_command_sequence devC ⟨"http://a/p", none⟩
    ⟨"http://a/m", none⟩ prof1 [] none 0 0 1 1 rfl rfl
  rw [hcl]
  norm_num [prof1, durationMs_zero]

/-- C8 counterexample: with a media client present and an empty profile
list, resolution panics (index out of bounds) — it does not surface an
error value such as a `NoProfileError`. -/
theorem empty_profiles_crash_cex :
    (getProfileToken devC []).1 =
      .panicked ("index out of bounds: the len is 0 but the index is 0") ∧
    Outcome.isErr (getProfileToken devC []).1 = false := ⟨rfl, rfl⟩

/-- C8 (amended): with a non-empty profile list, resolution issues one
get-profiles call per invocation (no caching) and returns a fresh token
copied from the first profile; with an empty list it panics after the call
(index out of bounds), and with no media client it panics before any call —
in neither failure case is an error value surfaced. -/
theorem profile_resolution_behavior :
    (∀ (dev : Device) (m : Client) (p : Profile) (rest : List Profile),
      dev.media = some m →
      getProfileToken dev (p :: rest) = (.ok p.token, [Command.getProfiles])) ∧
    (∀ (dev : Device) (m : Client), dev.media = some m →
      getProfileToken dev [] =
        (.panicked ("index out of bounds: the len is 0 but the index is 0"),
         [Command.getProfiles])) ∧
    (∀ (dev : Device) (profiles : List Profile), dev.media = none →
      getProfileToken dev profiles =
        (.panicked ("called Option::unwrap on a None value"), [])) := by
  refine ⟨?_, ?_, ?_⟩
  · intro dev m p rest hm
    simp [getProfileToken, hm]
  · intro dev m hm
    simp [getProfileToken, hm]
  · intro dev profiles hm
    simp [getProfileToken, hm]

/-- Witness for C8 at a concrete device and a one-profile response. -/
theorem profile_resolution_behavior_witness :
    getProfileToken devC [prof1] = (.ok ("prof0"), [Command.getProfiles]) := by
  have h := profile_resolution_behavior.1 devC ⟨"http://a/m", none⟩ prof1 [] rfl
  simpa [prof1] using h

/-- C9: continuous-move velocity vectors carry no translation-space tag on
either component and the fixed 5-second timeout, while relative-move
translation vectors carry the named pan/tilt and zoom space tags, with speed
unset and no follow-up stop issued. -/
theorem space_tags_and_timeout (dev : Device) (c m : Client) (p : Profile)
    (rest : List Profile) (pan tilt zoom : ℚ)
    (hptz : dev.ptz = some c) (hmed : dev.media = some m) :
    sendContinuousPtz dev (p :: rest) pan tilt zoom =
      (.ok (), [Command.getProfiles,
        Command.continuousMove p.token
          ⟨some ⟨pan, tilt, none⟩, some ⟨zoom, none⟩⟩ (some 5)]) ∧
    sendRelativePtz dev (p :: rest) pan tilt zoom =
      (.ok (), [Command.getProfiles,
        Command.relativeMove p.token
          ⟨some ⟨pan, tilt, some ("relative_pan_tilt_translation_space")⟩,
           some ⟨zoom, some ("relative_zoom_translation_space")⟩⟩ none]) ∧
    (∀ tok pt zm,
      ¬ Command.stop tok pt zm ∈ (sendRelativePtz dev (p :: rest) pan tilt zoom).2) := by
  refine ⟨?_, ?_, ?_⟩
  · simp [sendContinuousPtz, getProfileToken, hptz, hmed]
  · simp [sendRelativePtz, getProfileToken, hptz, hmed]
  · intro tok pt zm
    simp [sendRelativePtz, getProfileToken, hptz, hmed]

/-- Witness for C9 at concrete velocity components. -/
theorem space_tags_and_timeout_witness :
    sendContinuousPtz devC [prof1] 1 2 3 =
      (.ok (), [Command.getProfiles,
        Command.continuousMove ("prof0")
          ⟨some ⟨1, 2, none⟩, some ⟨3, none⟩⟩ (some 5)]) := by
  have h := (space_tags_and_timeout devC ⟨"http://a/p", none⟩ ⟨"http://a/m", none⟩
    prof1 [] 1 2 3 rfl rfl).1
  simpa [prof1] using h

/-- C10: when the Session's PTZ client is `None`, each motion operation
returns normally, issues no remote call, and raises no error — a silent
no-op. -/
theorem missing_ptz_noop (dev : Device) (profiles : List Profile)
    (pan tilt zoom : ℚ) (hptz : dev.ptz = none) :
    sendContinuousPtz dev profiles pan tilt zoom = (.ok (), []) ∧
    sendStopPtz dev profiles = (.ok (), []) ∧
    sendRelativePtz dev profiles pan tilt zoom = (.ok (), []) := by
  refine ⟨?_, ?_, ?_⟩ <;>
    simp [sendContinuousPtz, sendStopPtz, sendRelativePtz, hptz]

/-- Witness for C10 at a concrete PTZ-less device. -/
theorem missing_ptz_noop_witness :
    sendContinuousPtz devNoPtz [] 1 2 3 = (.ok (), []) ∧
    sendStopPtz devNoPtz [] = (.ok (), []) ∧
    sendRelativePtz devNoPtz [] 1 2 3 = (.ok (), []) :=
  missing_ptz_noop devNoPtz [] 1 2 3 rfl

end PtzCtl
